import Mathlib

/-!
Shallow embedding of the collaboration core of the ai-novel-writer
repository (src/permissions.py and src/collaboration.py), together with
theorems settling the specification claims about it.

Python dictionaries are embedded as association lists with dict update
semantics (overwrite in place, append when absent); UUIDs and datetimes are
embedded as natural numbers (only identity and ordering are used by the
code); `datetime.now()` and `uuid4()` are passed in as explicit parameters;
raised exceptions become an `Err` value returned together with the
post-call state, following the spec taxonomy for each raise site
(PermissionError is Forbidden; the ValueError raise sites are NotFound,
InvalidOperation, LinkInactive and LinkExpired per their messages).
-/

deriving instance DecidableEq for Except

namespace Collab

/-- Identifier type standing for Python UUID values. -/
abbrev UUID := Nat

/-- Timestamp type standing for Python datetime values. -/
abbrev Time := Nat

/-- Error taxonomy of the spec, one constructor per raise site kind. -/
inductive Err where
  | forbidden
  | notFound
  | invalidOperation
  | linkInactive
  | linkExpired
  | invalidRole
deriving DecidableEq, Repr

/-- Role enum of src/permissions.py. -/
inductive Role where
  | owner
  | editor
  | viewer
deriving DecidableEq, Repr, Fintype

/-- Permission enum of src/permissions.py. -/
inductive Permission where
  | view
  | edit
  | manage
deriving DecidableEq, Repr, Fintype

/-- The hardcoded grant table _ROLE_PERMISSIONS of src/permissions.py. -/
def ROLE_PERMISSIONS : Role → List Permission
  | .owner => [.view, .edit, .manage]
  | .editor => [.view, .edit]
  | .viewer => [.view]

/-- Embeds `can` of src/permissions.py: membership in the grant table. -/
def can (role : Role) (permission : Permission) : Bool :=
  (ROLE_PERMISSIONS role).contains permission

/-- Embeds `has_permission` of src/permissions.py. -/
def has_permission (role : Option Role) (permission : Permission) : Bool :=
  match role with
  | none => false
  | some r => can r permission

/-- The `.value` string of each Role enum member (Role is a str Enum). -/
def role_value : Role → String
  | .owner => "owner"
  | .editor => "editor"
  | .viewer => "viewer"

/-- Iteration order of `for role in Role` in src/permissions.py. -/
def roleMembers : List Role := [.owner, .editor, .viewer]

/-- Embeds Python `str.lower`: per-character lowercasing of the string. -/
def strLower (s : String) : String := ⟨s.data.map Char.toLower⟩

/-- Embeds `role_from_str` of src/permissions.py: lowercase the input and
scan the enum members for a matching value, else raise. -/
def role_from_str (value : String) : Except Err Role :=
  let normalized := strLower value
  match roleMembers.find? (fun role => role_value role == normalized) with
  | some role => .ok role
  | none => .error .invalidRole

/-- Association list with Python dict semantics: `dinsert` overwrites an
existing key in place and appends a fresh key at the end. -/
def dinsert (k : UUID) (v : α) : List (UUID × α) → List (UUID × α)
  | [] => [(k, v)]
  | (k', v') :: rest => if k' = k then (k, v) :: rest else (k', v') :: dinsert k v rest

/-- Association-list deletion with Python dict semantics (`del d[k]`). -/
def derase (k : UUID) : List (UUID × α) → List (UUID × α)
  | [] => []
  | (k', v') :: rest => if k' = k then rest else (k', v') :: derase k rest

/-- Embeds the User dataclass of src/collaboration.py. -/
structure User where
  id : UUID
  email : String
  name : String
deriving DecidableEq, Repr

/-- Embeds the ShareLink dataclass of src/collaboration.py. -/
structure ShareLink where
  id : UUID
  document_id : UUID
  created_by : UUID
  created_at : Time
  expires_at : Option Time := none
  access_role : Role := .viewer
  is_active : Bool := true
  access_count : Nat := 0
deriving DecidableEq, Repr

/-- Embeds the Collaborator dataclass of src/collaboration.py. -/
structure Collaborator where
  user_id : UUID
  document_id : UUID
  role : Role
  added_by : UUID
  added_at : Time
  last_accessed : Option Time := none
deriving DecidableEq, Repr

/-- Embeds the Document dataclass of src/collaboration.py. The `content`
and `metadata` dict payloads are opaque to the core (never inspected), so
they are embedded as opaque string association lists. -/
structure Document where
  id : UUID
  title : String
  content : List (String × String)
  owner_id : UUID
  created_at : Time
  updated_at : Time
  metadata : List (String × String) := []
  collaborators : List (UUID × Collaborator) := []
  share_links : List (UUID × ShareLink) := []
deriving DecidableEq, Repr

/-- Embeds the mutable fields of CollaborationManager: the two top-level
id-keyed mappings of the access store. -/
structure ManagerState where
  documents : List (UUID × Document)
  users : List (UUID × User)
deriving DecidableEq, Repr

/-- Embeds CollaborationManager.get_user_role. -/
def get_user_role (s : ManagerState) (user_id document_id : UUID) : Option Role :=
  match s.documents.lookup document_id with
  | none => none
  | some document =>
    if document.owner_id = user_id then
      some Role.owner
    else
      match document.collaborators.lookup user_id with
      | some collaborator => some collaborator.role
      | none => none

/-- Embeds CollaborationManager.check_permission. -/
def check_permission (s : ManagerState) (user_id document_id : UUID)
    (permission : Permission) : Bool :=
  has_permission (get_user_role s user_id document_id) permission

/-- Embeds CollaborationManager.add_collaborator; `now` stands for the
`datetime.now()` call made on success. -/
def add_collaborator (s : ManagerState) (document_id user_id : UUID)
    (role : Role) (added_by : UUID) (now : Time) :
    Except Err Collaborator × ManagerState :=
  if !check_permission s added_by document_id .manage then
    (.error .forbidden, s)
  else
    match s.documents.lookup document_id with
    | none => (.error .notFound, s)
    | some document =>
      if (s.users.lookup user_id).isNone then
        (.error .notFound, s)
      else if user_id = document.owner_id then
        (.error .invalidOperation, s)
      else
        let collaborator : Collaborator :=
          { user_id := user_id, document_id := document_id, role := role,
            added_by := added_by, added_at := now }
        let document' :=
          { document with
            collaborators := dinsert user_id collaborator document.collaborators }
        (.ok collaborator,
          { s with documents := dinsert document_id document' s.documents })

/-- Embeds CollaborationManager.remove_collaborator. -/
def remove_collaborator (s : ManagerState) (document_id user_id removed_by : UUID) :
    Except Err Unit × ManagerState :=
  if !check_permission s removed_by document_id .manage then
    (.error .forbidden, s)
  else
    match s.documents.lookup document_id with
    | none => (.error .notFound, s)
    | some document =>
      match document.collaborators.lookup user_id with
      | none => (.error .notFound, s)
      | some _ =>
        let document' :=
          { document with collaborators := derase user_id document.collaborators }
        (.ok (),
          { s with documents := dinsert document_id document' s.documents })

/-- Embeds CollaborationManager.create_share_link; `now` stands for
`datetime.now()` and `new_id` for the `uuid4()` fresh-id draw. -/
def create_share_link (s : ManagerState) (document_id created_by : UUID)
    (role : Role) (expires_at : Option Time) (now : Time) (new_id : UUID) :
    Except Err ShareLink × ManagerState :=
  if !check_permission s created_by document_id .manage then
    (.error .forbidden, s)
  else
    match s.documents.lookup document_id with
    | none => (.error .notFound, s)
    | some document =>
      let share_link : ShareLink :=
        { id := new_id, document_id := document_id, created_by := created_by,
          created_at := now, expires_at := expires_at, access_role := role }
      let document' :=
        { document with share_links := dinsert new_id share_link document.share_links }
      (.ok share_link,
        { s with documents := dinsert document_id document' s.documents })

/-- Embeds CollaborationManager.revoke_share_link. -/
def revoke_share_link (s : ManagerState) (document_id link_id revoked_by : UUID) :
    Except Err Unit × ManagerState :=
  if !check_permission s revoked_by document_id .manage then
    (.error .forbidden, s)
  else
    match s.documents.lookup document_id with
    | none => (.error .notFound, s)
    | some document =>
      match document.share_links.lookup link_id with
      | none => (.error .notFound, s)
      | some share_link =>
        let document' :=
          { document with
            share_links :=
              dinsert link_id { share_link with is_active := false } document.share_links }
        (.ok (),
          { s with documents := dinsert document_id document' s.documents })

/-- Expiry test of access_via_share_link: `share_link.expires_at and
datetime.now() > share_link.expires_at` (a datetime is always truthy). -/
def expired (expires_at : Option Time) (now : Time) : Bool :=
  match expires_at with
  | none => false
  | some e => now > e

/-- Success-path update of the found document inside access_via_share_link:
increment the link's counter; when a user id is supplied and is a
collaborator, stamp that collaborator's last_accessed. -/
def redeem_doc (link_id : UUID) (user_id : Option UUID) (now : Time)
    (document : Document) : Document :=
  match document.share_links.lookup link_id with
  | none => document
  | some share_link =>
    let document' :=
      { document with
        share_links :=
          dinsert link_id
            { share_link with access_count := share_link.access_count + 1 }
            document.share_links }
    match user_id with
    | none => document'
    | some uid =>
      match document'.collaborators.lookup uid with
      | none => document'
      | some c =>
        { document' with
          collaborators :=
            dinsert uid { c with last_accessed := some now } document'.collaborators }

/-- Embeds the `for document in self.documents.values()` scan of
access_via_share_link over the store's document list. -/
def access_scan (link_id : UUID) (user_id : Option UUID) (now : Time) :
    List (UUID × Document) → Except Err (Document × Role) × List (UUID × Document)
  | [] => (.error .notFound, [])
  | (did, document) :: rest =>
    match document.share_links.lookup link_id with
    | some share_link =>
      if !share_link.is_active then
        (.error .linkInactive, (did, document) :: rest)
      else if expired share_link.expires_at now then
        (.error .linkExpired, (did, document) :: rest)
      else
        let document' := redeem_doc link_id user_id now document
        (.ok (document', share_link.access_role), (did, document') :: rest)
    | none =>
      let (r, rest') := access_scan link_id user_id now rest
      (r, (did, document) :: rest')

/-- Embeds CollaborationManager.access_via_share_link: the scan result is
the returned value, the scanned list is the post-call document store. -/
def access_via_share_link (s : ManagerState) (link_id : UUID)
    (user_id : Option UUID) (now : Time) :
    Except Err (Document × Role) × ManagerState :=
  ((access_scan link_id user_id now s.documents).1,
   { s with documents := (access_scan link_id user_id now s.documents).2 })

/-- First document of the store list containing the given link id,
together with that link: the document/link the scan loop of
access_via_share_link acts on. -/
def find_link (link_id : UUID) : List (UUID × Document) → Option (UUID × Document × ShareLink)
  | [] => none
  | (did, d) :: rest =>
    match d.share_links.lookup link_id with
    | some l => some (did, d, l)
    | none => find_link link_id rest

/-- Rewrites the first document containing the given link id with `f`,
leaving every other entry untouched: the state change of a successful
redemption, as performed by the scan loop. -/
def scan_update (link_id : UUID) (f : Document → Document) :
    List (UUID × Document) → List (UUID × Document)
  | [] => []
  | (did, d) :: rest =>
    match d.share_links.lookup link_id with
    | some _ => (did, f d) :: rest
    | none => (did, d) :: scan_update link_id f rest

/-- Embeds CollaborationManager.list_collaborators. -/
def list_collaborators (s : ManagerState) (document_id user_id : UUID) :
    Except Err (List Collaborator) × ManagerState :=
  if !check_permission s user_id document_id .view then
    (.error .forbidden, s)
  else
    match s.documents.lookup document_id with
    | none => (.error .notFound, s)
    | some document => (.ok (document.collaborators.map Prod.snd), s)

/-- Embeds CollaborationManager.list_share_links. -/
def list_share_links (s : ManagerState) (document_id user_id : UUID) :
    Except Err (List ShareLink) × ManagerState :=
  if !check_permission s user_id document_id .manage then
    (.error .forbidden, s)
  else
    match s.documents.lookup document_id with
    | none => (.error .notFound, s)
    | some document => (.ok (document.share_links.map Prod.snd), s)

/-! Concrete example store states, used by the witness theorems: user 10
owns document 1, user 20 is registered, and in the link variant document 1
carries the active share link 100. -/

def exDoc : Document :=
  { id := 1, title := "doc", content := [], owner_id := 10, created_at := 0, updated_at := 0 }

def exUsers : List (UUID × User) :=
  [(10, { id := 10, email := "o@example.com", name := "O" }),
   (20, { id := 20, email := "e@example.com", name := "E" })]

def exState : ManagerState := { documents := [(1, exDoc)], users := exUsers }

def exLink : ShareLink := { id := 100, document_id := 1, created_by := 10, created_at := 0 }

def exDocLink : Document := { exDoc with share_links := [(100, exLink)] }

def exStateLink : ManagerState := { documents := [(1, exDocLink)], users := exUsers }

def emptyState : ManagerState := { documents := [], users := [] }

def exLinkRevoked : ShareLink := { exLink with is_active := false }

def exDocRevoked : Document := { exDoc with share_links := [(100, exLinkRevoked)] }

def exStateRevoked : ManagerState := { documents := [(1, exDocRevoked)], users := exUsers }

def exLinkExpired : ShareLink := { exLink with expires_at := some 5 }

def exDocExpired : Document := { exDoc with share_links := [(100, exLinkExpired)] }

def exStateExpired : ManagerState := { documents := [(1, exDocExpired)], users := exUsers }

/-- C8: revokeShareLink is idempotent — for an existing link and an actor
holding MANAGE, the first revocation succeeds, a second revocation also
succeeds (no error), and the state after the second equals the state after
the first: the inactive flag is simply set to false again. -/
def revokedLink (l : ShareLink) : ShareLink := { l with is_active := false }

def revokedDoc (link_id : UUID) (l : ShareLink) (d : Document) : Document :=
  { d with share_links := dinsert link_id (revokedLink l) d.share_links }

def revokedState (document_id link_id : UUID) (l : ShareLink) (d : Document)
    (s : ManagerState) : ManagerState :=
  { s with documents := dinsert document_id (revokedDoc link_id l d) s.documents }

def ownerCollab (document_id user_id acting : UUID) (now : Time) : Collaborator :=
  { user_id := user_id, document_id := document_id, role := .owner,
    added_by := acting, added_at := now }

def ownerCollabDoc (document_id user_id acting : UUID) (now : Time) (d : Document) : Document :=
  { d with collaborators :=
      dinsert user_id (ownerCollab document_id user_id acting now) d.collaborators }

def ownerCollabState (document_id user_id acting : UUID) (now : Time) (d : Document)
    (s : ManagerState) : ManagerState :=
  { s with documents :=
      dinsert document_id (ownerCollabDoc document_id user_id acting now d) s.documents }

def newOwnerLink (document_id acting new_id : UUID) (expires_at : Option Time)
    (now : Time) : ShareLink :=
  { id := new_id, document_id := document_id, created_by := acting,
    created_at := now, expires_at := expires_at, access_role := .owner }

/-- A document never lists its own owner among its collaborator keys. -/
def doc_ok (d : Document) : Prop :=
  ∀ q ∈ d.collaborators, q.1 ≠ d.owner_id

/-- Store invariant: no document's collaborator mapping contains that
document's owner id as a key. -/
def owner_not_collaborator (s : ManagerState) : Prop :=
  ∀ p ∈ s.documents, doc_ok p.2

/-- One gated operation of the collaboration core, viewed as a step
relation between store states. -/
inductive GatedStep : ManagerState → ManagerState → Prop where
  | add (s : ManagerState) (document_id user_id : UUID) (role : Role)
      (acting : UUID) (now : Time) :
      GatedStep s (add_collaborator s document_id user_id role acting now).2
  | remove (s : ManagerState) (document_id user_id acting : UUID) :
      GatedStep s (remove_collaborator s document_id user_id acting).2
  | createLink (s : ManagerState) (document_id acting : UUID) (role : Role)
      (expires_at : Option Time) (now : Time) (new_id : UUID) :
      GatedStep s (create_share_link s document_id acting role expires_at now new_id).2
  | revokeLink (s : ManagerState) (document_id link_id acting : UUID) :
      GatedStep s (revoke_share_link s document_id link_id acting).2
  | accessLink (s : ManagerState) (link_id : UUID) (ouser : Option UUID) (now : Time) :
      GatedStep s (access_via_share_link s link_id ouser now).2
  | listCollab (s : ManagerState) (document_id acting : UUID) :
      GatedStep s (list_collaborators s document_id acting).2
  | listLinks (s : ManagerState) (document_id acting : UUID) :
      GatedStep s (list_share_links s document_id acting).2

/-- N sequential anonymous redemptions of a link at a fixed clock. -/
def redeemN (s : ManagerState) (link_id : UUID) (now : Time) : Nat → ManagerState
  | 0 => s
  | n + 1 => (access_via_share_link (redeemN s link_id now n) link_id none now).2

/-! Helper lemmas about the dict embedding. -/

theorem lookup_cons (k k' : UUID) (v : α) (l : List (UUID × α)) :
    ((k', v) :: l).lookup k = if k = k' then some v else l.lookup k := by
  simp only [List.lookup]
  by_cases h : k = k'
  · rw [if_pos h]
    have hb : (k == k') = true := beq_iff_eq.mpr h
    rw [hb]
  · rw [if_neg h]
    have hb : (k == k') = false := beq_eq_false_iff_ne.mpr h
    rw [hb]

theorem lookup_dinsert_self (k : UUID) (v : α) (l : List (UUID × α)) :
    (dinsert k v l).lookup k = some v := by
  induction l with
  | nil => simp [dinsert, lookup_cons]
  | cons hd tl ih =>
    obtain ⟨k', v'⟩ := hd
    by_cases h : k' = k
    · subst h
      simp [dinsert, lookup_cons]
    · simp [dinsert, h, lookup_cons, Ne.symm h, ih]

theorem lookup_dinsert_ne (k k' : UUID) (v : α) (l : List (UUID × α)) (h : k' ≠ k) :
    (dinsert k v l).lookup k' = l.lookup k' := by
  induction l with
  | nil => simp [dinsert, lookup_cons, h]
  | cons hd tl ih =>
    obtain ⟨k₀, v₀⟩ := hd
    by_cases h₀ : k₀ = k
    · subst h₀
      simp [dinsert, lookup_cons, h]
    · simp [dinsert, h₀, lookup_cons, ih]

theorem dinsert_idem (k : UUID) (v : α) (l : List (UUID × α)) :
    dinsert k v (dinsert k v l) = dinsert k v l := by
  induction l with
  | nil => simp [dinsert]
  | cons hd tl ih =>
    obtain ⟨k', v'⟩ := hd
    by_cases h : k' = k
    · subst h
      simp [dinsert]
    · simp [dinsert, h, ih]

theorem mem_dinsert (k : UUID) (v : α) (l : List (UUID × α)) (p : UUID × α)
    (hp : p ∈ dinsert k v l) : p = (k, v) ∨ p ∈ l := by
  induction l with
  | nil => simpa [dinsert] using hp
  | cons hd tl ih =>
    obtain ⟨k', v'⟩ := hd
    by_cases h : k' = k
    · subst h
      simp [dinsert] at hp
      rcases hp with hp | hp
      · exact Or.inl (by simp [hp])
      · exact Or.inr (List.mem_cons_of_mem _ hp)
    · simp [dinsert, h] at hp
      rcases hp with hp | hp
      · exact Or.inr (by simp [hp])
      · rcases ih hp with h' | h'
        · exact Or.inl h'
        · exact Or.inr (List.mem_cons_of_mem _ h')

theorem mem_derase (k : UUID) (l : List (UUID × α)) (p : UUID × α)
    (hp : p ∈ derase k l) : p ∈ l := by
  induction l with
  | nil => simp [derase] at hp
  | cons hd tl ih =>
    obtain ⟨k', v'⟩ := hd
    by_cases h : k' = k
    · subst h
      simp [derase] at hp
      exact List.mem_cons_of_mem _ hp
    · simp only [derase, if_neg h] at hp
      rcases List.mem_cons.mp hp with hp | hp
      · exact hp ▸ List.mem_cons_self _ _
      · exact List.mem_cons_of_mem _ (ih hp)

theorem lookup_mem (k : UUID) (v : α) (l : List (UUID × α))
    (h : l.lookup k = some v) : (k, v) ∈ l := by
  induction l with
  | nil => simp [List.lookup] at h
  | cons hd tl ih =>
    obtain ⟨k', v'⟩ := hd
    rw [lookup_cons] at h
    by_cases hk : k = k'
    · subst hk
      simp at h
      simp [h]
    · simp [hk] at h
      exact List.mem_cons_of_mem _ (ih h)

/-! Characterization of the redemption scan by cases on `find_link`. -/

theorem find_link_none_scan (link_id : UUID) (user_id : Option UUID) (now : Time) :
    ∀ docs, find_link link_id docs = none →
      access_scan link_id user_id now docs = (.error .notFound, docs) := by
  intro docs
  induction docs with
  | nil => intro _; rfl
  | cons hd tl ih =>
    intro h
    obtain ⟨did, document⟩ := hd
    cases hl : document.share_links.lookup link_id with
    | some sl => simp [find_link, hl] at h
    | none =>
      have ih' := ih (by simpa [find_link, hl] using h)
      simp [access_scan, hl, ih']

theorem find_link_inactive_scan (link_id : UUID) (user_id : Option UUID) (now : Time) :
    ∀ docs did d l, find_link link_id docs = some (did, d, l) → l.is_active = false →
      access_scan link_id user_id now docs = (.error .linkInactive, docs) := by
  intro docs
  induction docs with
  | nil => intro did d l h _; simp [find_link] at h
  | cons hd tl ih =>
    intro did d l h ha
    obtain ⟨did₀, document⟩ := hd
    cases hl : document.share_links.lookup link_id with
    | some sl =>
      simp [find_link, hl] at h
      obtain ⟨h₁, h₂, h₃⟩ := h
      subst h₁; subst h₂; subst h₃
      simp [access_scan, hl, ha]
    | none =>
      simp only [find_link, hl] at h
      have ih' := ih did d l h ha
      simp [access_scan, hl, ih']

theorem find_link_expired_scan (link_id : UUID) (user_id : Option UUID) (now : Time) :
    ∀ docs did d l, find_link link_id docs = some (did, d, l) → l.is_active = true →
      expired l.expires_at now = true →
      access_scan link_id user_id now docs = (.error .linkExpired, docs) := by
  intro docs
  induction docs with
  | nil => intro did d l h _ _; simp [find_link] at h
  | cons hd tl ih =>
    intro did d l h ha he
    obtain ⟨did₀, document⟩ := hd
    cases hl : document.share_links.lookup link_id with
    | some sl =>
      simp [find_link, hl] at h
      obtain ⟨h₁, h₂, h₃⟩ := h
      subst h₁; subst h₂; subst h₃
      simp [access_scan, hl, ha, he]
    | none =>
      simp only [find_link, hl] at h
      have ih' := ih did d l h ha he
      simp [access_scan, hl, ih']

theorem find_link_ok_scan (link_id : UUID) (user_id : Option UUID) (now : Time) :
    ∀ docs did d l, find_link link_id docs = some (did, d, l) → l.is_active = true →
      expired l.expires_at now = false →
      access_scan link_id user_id now docs =
        (.ok (redeem_doc link_id user_id now d, l.access_role),
         scan_update link_id (redeem_doc link_id user_id now) docs) := by
  intro docs
  induction docs with
  | nil => intro did d l h _ _; simp [find_link] at h
  | cons hd tl ih =>
    intro did d l h ha he
    obtain ⟨did₀, document⟩ := hd
    cases hl : document.share_links.lookup link_id with
    | some sl =>
      simp [find_link, hl] at h
      obtain ⟨h₁, h₂, h₃⟩ := h
      subst h₁; subst h₂; subst h₃
      simp [access_scan, scan_update, hl, ha, he]
    | none =>
      simp only [find_link, hl] at h
      have ih' := ih did d l h ha he
      simp [access_scan, scan_update, hl, ih']

/-- C3: the grant table is fixed and total — the owner role holds every
permission, editor exactly view and edit, viewer exactly view, every role
grants view, the permission sets are monotone (viewer ≤ editor ≤ owner),
and an absent role grants no permission at all. -/
theorem grant_table_fixed_total_monotone :
    (∀ p, can .owner p = true) ∧
    (∀ p, can .editor p = (p == Permission.view || p == Permission.edit)) ∧
    (∀ p, can .viewer p = (p == Permission.view)) ∧
    (∀ r, can r .view = true) ∧
    (∀ p, can .viewer p ≤ can .editor p) ∧
    (∀ p, can .editor p ≤ can .owner p) ∧
    (∀ p, has_permission none p = false) := by
  decide

/-- C9: role parsing round-trips on the three canonical role names, is
case-insensitive over them, and fails with InvalidRole on every other
input string, including "admin". -/
theorem role_from_str_round_trip :
    (∀ r, role_from_str (role_value r) = .ok r) ∧
    (∀ v r, strLower v = role_value r → role_from_str v = .ok r) ∧
    (∀ v, (∀ r, strLower v ≠ role_value r) → role_from_str v = .error .invalidRole) ∧
    role_from_str "admin" = .error .invalidRole := by
  refine ⟨by decide, ?_, ?_, by decide⟩
  · intro v r h
    cases r <;> simp [role_from_str, h, roleMembers, role_value, List.find?]
  · intro v h
    have h1 : ("owner" == strLower v) = false :=
      beq_eq_false_iff_ne.mpr (fun he => h .owner he.symm)
    have h2 : ("editor" == strLower v) = false :=
      beq_eq_false_iff_ne.mpr (fun he => h .editor he.symm)
    have h3 : ("viewer" == strLower v) = false :=
      beq_eq_false_iff_ne.mpr (fun he => h .viewer he.symm)
    simp [role_from_str, roleMembers, List.find?, role_value, h1, h2, h3]

/-- Witness for C9: a mixed-case canonical name parses, a non-role name is
rejected. -/
theorem role_from_str_round_trip_witness :
    role_from_str "EdItOr" = .ok .editor ∧ role_from_str "boss" = .error .invalidRole :=
  ⟨role_from_str_round_trip.2.1 "EdItOr" .editor (by decide),
   role_from_str_round_trip.2.2.1 "boss" (by decide)⟩

/-- C1 counterexample: with an empty store (so document 0 is absent),
add_collaborator fails with Forbidden, not NotFound — the MANAGE gate
rejects the call before the document existence check is reached. -/
theorem absent_document_notFound_cex :
    (add_collaborator emptyState 0 1 .viewer 2 3).1 ≠ Except.error Err.notFound := by
  decide

/-- C1 amended: when the document id is absent from the documents mapping,
addCollaborator, removeCollaborator, createShareLink, revokeShareLink and
listShareLinks all fail with Forbidden (not NotFound) and leave the state
unchanged, for every acting user: an absent document yields no role, so
the MANAGE permission gate fires before the existence check. -/
theorem absent_document_all_forbidden (s : ManagerState)
    (document_id user_id acting link_id new_id : UUID) (role : Role)
    (expires_at : Option Time) (now : Time)
    (h : s.documents.lookup document_id = none) :
    add_collaborator s document_id user_id role acting now = (.error .forbidden, s) ∧
    remove_collaborator s document_id user_id acting = (.error .forbidden, s) ∧
    create_share_link s document_id acting role expires_at now new_id = (.error .forbidden, s) ∧
    revoke_share_link s document_id link_id acting = (.error .forbidden, s) ∧
    list_share_links s document_id acting = (.error .forbidden, s) := by
  have hcp : ∀ p, check_permission s acting document_id p = false := by
    intro p
    simp [check_permission, get_user_role, h, has_permission]
  refine ⟨?_, ?_, ?_, ?_, ?_⟩ <;>
    simp [add_collaborator, remove_collaborator, create_share_link,
      revoke_share_link, list_share_links, hcp]

/-- Witness for the amended C1 at the empty store. -/
theorem absent_document_all_forbidden_witness :
    add_collaborator emptyState 0 1 .viewer 2 3 = (.error .forbidden, emptyState) ∧
    remove_collaborator emptyState 0 1 2 = (.error .forbidden, emptyState) ∧
    create_share_link emptyState 0 2 .viewer none 3 4 = (.error .forbidden, emptyState) ∧
    revoke_share_link emptyState 0 5 2 = (.error .forbidden, emptyState) ∧
    list_share_links emptyState 0 2 = (.error .forbidden, emptyState) :=
  absent_document_all_forbidden emptyState 0 1 2 5 4 .viewer none 3 rfl

/-- C2: every manage-gated operation fails closed — an actor without the
MANAGE permission gets Forbidden with the state unchanged, whatever the
rest of the store contains (in particular before and independent of any
existence check on the target user or link); consequently, for two states
in which the actor equally lacks MANAGE — e.g. states differing only in
whether the target user or link exists — the observable outcome is
identical. -/
theorem manage_gate_fails_closed (s₁ s₂ : ManagerState)
    (document_id user_id acting link_id new_id : UUID) (role : Role)
    (expires_at : Option Time) (now : Time)
    (h₁ : check_permission s₁ acting document_id .manage = false)
    (h₂ : check_permission s₂ acting document_id .manage = false) :
    add_collaborator s₁ document_id user_id role acting now = (.error .forbidden, s₁) ∧
    remove_collaborator s₁ document_id user_id acting = (.error .forbidden, s₁) ∧
    create_share_link s₁ document_id acting role expires_at now new_id = (.error .forbidden, s₁) ∧
    revoke_share_link s₁ document_id link_id acting = (.error .forbidden, s₁) ∧
    list_share_links s₁ document_id acting = (.error .forbidden, s₁) ∧
    (add_collaborator s₁ document_id user_id role acting now).1 =
      (add_collaborator s₂ document_id user_id role acting now).1 ∧
    (remove_collaborator s₁ document_id user_id acting).1 =
      (remove_collaborator s₂ document_id user_id acting).1 ∧
    (create_share_link s₁ document_id acting role expires_at now new_id).1 =
      (create_share_link s₂ document_id acting role expires_at now new_id).1 ∧
    (revoke_share_link s₁ document_id link_id acting).1 =
      (revoke_share_link s₂ document_id link_id acting).1 ∧
    (list_share_links s₁ document_id acting).1 =
      (list_share_links s₂ document_id acting).1 := by
  simp [add_collaborator, remove_collaborator, create_share_link,
    revoke_share_link, list_share_links, h₁, h₂]

/-- Witness for C2: actor 20 holds no manage permission in either the
store without the share link nor the one with it; all five operations are
Forbidden and the two runs agree. -/
theorem manage_gate_fails_closed_witness :
    add_collaborator exState 1 30 .editor 20 3 = (.error .forbidden, exState) ∧
    remove_collaborator exState 1 30 20 = (.error .forbidden, exState) ∧
    create_share_link exState 1 20 .editor none 3 4 = (.error .forbidden, exState) ∧
    revoke_share_link exState 1 100 20 = (.error .forbidden, exState) ∧
    list_share_links exState 1 20 = (.error .forbidden, exState) ∧
    (add_collaborator exState 1 30 .editor 20 3).1 =
      (add_collaborator exStateLink 1 30 .editor 20 3).1 ∧
    (remove_collaborator exState 1 30 20).1 =
      (remove_collaborator exStateLink 1 30 20).1 ∧
    (create_share_link exState 1 20 .editor none 3 4).1 =
      (create_share_link exStateLink 1 20 .editor none 3 4).1 ∧
    (revoke_share_link exState 1 100 20).1 =
      (revoke_share_link exStateLink 1 100 20).1 ∧
    (list_share_links exState 1 20).1 =
      (list_share_links exStateLink 1 20).1 :=
  manage_gate_fails_closed exState exStateLink 1 30 20 100 4 .editor none 3
    (by decide) (by decide)

/-- C4: failure atomicity — whenever any operation of the collaboration
core returns an error, the store state it returns equals the store state
it was called in: no partial mutation survives a failure. -/
theorem failure_atomicity (s : ManagerState)
    (document_id user_id acting link_id new_id : UUID) (ouser : Option UUID)
    (role : Role) (expires_at : Option Time) (now : Time) :
    (∀ e t, add_collaborator s document_id user_id role acting now = (.error e, t) → t = s) ∧
    (∀ e t, remove_collaborator s document_id user_id acting = (.error e, t) → t = s) ∧
    (∀ e t, create_share_link s document_id acting role expires_at now new_id = (.error e, t) → t = s) ∧
    (∀ e t, revoke_share_link s document_id link_id acting = (.error e, t) → t = s) ∧
    (∀ e t, access_via_share_link s link_id ouser now = (.error e, t) → t = s) ∧
    (∀ e t, list_collaborators s document_id acting = (.error e, t) → t = s) ∧
    (∀ e t, list_share_links s document_id acting = (.error e, t) → t = s) := by
  refine ⟨?_, ?_, ?_, ?_, ?_, ?_, ?_⟩
  · intro e t h
    unfold add_collaborator at h
    repeat' split at h
    all_goals first
      | exact (congrArg Prod.snd h).symm
      | simp at h
  · intro e t h
    unfold remove_collaborator at h
    repeat' split at h
    all_goals first
      | exact (congrArg Prod.snd h).symm
      | simp at h
  · intro e t h
    unfold create_share_link at h
    repeat' split at h
    all_goals first
      | exact (congrArg Prod.snd h).symm
      | simp at h
  · intro e t h
    unfold revoke_share_link at h
    repeat' split at h
    all_goals first
      | exact (congrArg Prod.snd h).symm
      | simp at h
  · intro e t h
    cases hf : find_link link_id s.documents with
    | none =>
      simp only [access_via_share_link] at h
      rw [find_link_none_scan link_id ouser now s.documents hf] at h
      exact (congrArg Prod.snd h).symm
    | some p =>
      obtain ⟨did, d, l⟩ := p
      by_cases ha : l.is_active = true
      · by_cases he : expired l.expires_at now = true
        · simp only [access_via_share_link] at h
          rw [find_link_expired_scan link_id ouser now s.documents did d l hf ha he] at h
          exact (congrArg Prod.snd h).symm
        · simp only [access_via_share_link] at h
          rw [find_link_ok_scan link_id ouser now s.documents did d l hf ha
            (by simpa using he)] at h
          simp at h
      · simp only [access_via_share_link] at h
        rw [find_link_inactive_scan link_id ouser now s.documents did d l hf
          (by simpa using ha)] at h
        exact (congrArg Prod.snd h).symm
  · intro e t h
    unfold list_collaborators at h
    repeat' split at h
    all_goals exact (congrArg Prod.snd h).symm
  · intro e t h
    unfold list_share_links at h
    repeat' split at h
    all_goals exact (congrArg Prod.snd h).symm

/-- Witness for C4: redeeming an absent link fails NotFound and leaves the
concrete store unchanged. -/
theorem failure_atomicity_witness :
    exState = exState ∧
    access_via_share_link exState 100 none 3 = (.error .notFound, exState) :=
  ⟨(failure_atomicity exState 1 30 20 100 4 none .editor none 3).2.2.2.2.1 .notFound exState
      (by decide),
   by decide⟩

theorem find_link_eq_none_iff (link_id : UUID) (docs : List (UUID × Document)) :
    find_link link_id docs = none ↔ ∀ p ∈ docs, p.2.share_links.lookup link_id = none := by
  induction docs with
  | nil => simp [find_link]
  | cons hd tl ih =>
    obtain ⟨did, d⟩ := hd
    cases hl : d.share_links.lookup link_id with
    | some sl =>
      simp only [find_link, hl]
      constructor
      · intro h
        exact absurd h (by simp)
      · intro h
        exact absurd (h (did, d) (List.mem_cons_self _ _)) (by simp [hl])
    | none =>
      simp only [find_link, hl]
      rw [ih]
      constructor
      · intro h p hp
        rcases List.mem_cons.mp hp with rfl | hp
        · exact hl
        · exact h p hp
      · intro h p hp
        exact h p (List.mem_cons_of_mem _ hp)

/-- C7: failure taxonomy of accessViaShareLink — it reports NotFound
exactly when no document of the store contains the link id; a found but
inactive link reports LinkInactive whatever its expiry (the active check
precedes the expiry check); a found, active link whose expiry timestamp is
strictly before now reports LinkExpired. Each failure leaves the state
unchanged. -/
theorem share_link_redemption_errors (s : ManagerState) (link_id : UUID)
    (ouser : Option UUID) (now : Time) :
    ((access_via_share_link s link_id ouser now).1 = .error .notFound ↔
      ∀ p ∈ s.documents, p.2.share_links.lookup link_id = none) ∧
    (∀ did d l, find_link link_id s.documents = some (did, d, l) → l.is_active = false →
      access_via_share_link s link_id ouser now = (.error .linkInactive, s)) ∧
    (∀ did d l t, find_link link_id s.documents = some (did, d, l) → l.is_active = true →
      l.expires_at = some t → t < now →
      access_via_share_link s link_id ouser now = (.error .linkExpired, s)) := by
  refine ⟨⟨?_, ?_⟩, ?_, ?_⟩
  · intro h
    rw [← find_link_eq_none_iff]
    cases hf : find_link link_id s.documents with
    | none => rfl
    | some p =>
      obtain ⟨did, d, l⟩ := p
      exfalso
      by_cases ha : l.is_active = true
      · by_cases he : expired l.expires_at now = true
        · have hs := find_link_expired_scan link_id ouser now s.documents did d l hf ha he
          simp [access_via_share_link, hs] at h
        · have hs := find_link_ok_scan link_id ouser now s.documents did d l hf ha
            (by simpa using he)
          simp [access_via_share_link, hs] at h
      · have hs := find_link_inactive_scan link_id ouser now s.documents did d l hf
          (by simpa using ha)
        simp [access_via_share_link, hs] at h
  · intro h
    have hf := (find_link_eq_none_iff link_id s.documents).mpr h
    have hs := find_link_none_scan link_id ouser now s.documents hf
    simp [access_via_share_link, hs]
  · intro did d l hf ha
    have hs := find_link_inactive_scan link_id ouser now s.documents did d l hf ha
    simp [access_via_share_link, hs]
  · intro did d l t hf ha he ht
    have hexp : expired l.expires_at now = true := by simp [expired, he, ht]
    have hs := find_link_expired_scan link_id ouser now s.documents did d l hf ha hexp
    simp [access_via_share_link, hs]

/-- Witness for C7: a revoked link redeems to LinkInactive, an expired
active link redeems to LinkExpired, at concrete stores. -/
theorem share_link_redemption_errors_witness :
    access_via_share_link exStateRevoked 100 none 3 = (.error .linkInactive, exStateRevoked) ∧
    access_via_share_link exStateExpired 100 none 9 = (.error .linkExpired, exStateExpired) :=
  ⟨(share_link_redemption_errors exStateRevoked 100 none 3).2.1 1 exDocRevoked exLinkRevoked
      (by decide) (by decide),
   (share_link_redemption_errors exStateExpired 100 none 9).2.2 1 exDocExpired exLinkExpired 5
      (by decide) (by decide) (by decide) (by decide)⟩

theorem revoke_share_link_idempotent (s : ManagerState)
    (document_id link_id revoked_by : UUID) (d : Document) (l : ShareLink)
    (hp : check_permission s revoked_by document_id .manage = true)
    (hd : s.documents.lookup document_id = some d)
    (hl : d.share_links.lookup link_id = some l) :
    (revoke_share_link s document_id link_id revoked_by).1 = .ok () ∧
    revoke_share_link (revoke_share_link s document_id link_id revoked_by).2
        document_id link_id revoked_by =
      (.ok (), (revoke_share_link s document_id link_id revoked_by).2) := by
  have h1 : revoke_share_link s document_id link_id revoked_by =
      (.ok (), revokedState document_id link_id l d s) := by
    simp [revoke_share_link, hp, hd, hl, revokedState, revokedDoc, revokedLink]
  have hp' : check_permission (revokedState document_id link_id l d s)
      revoked_by document_id .manage = true := by
    unfold check_permission get_user_role at hp ⊢
    unfold revokedState
    rw [lookup_dinsert_self]
    rw [hd] at hp
    simpa [revokedDoc] using hp
  refine ⟨by rw [h1], ?_⟩
  rw [h1]
  simp only [revokedState, revokedDoc, revokedLink] at hp'
  simp [revoke_share_link, hp', revokedState, revokedDoc, revokedLink,
    lookup_dinsert_self, dinsert_idem]

/-- Witness for C8: the owner revokes link 100 twice at the concrete
store; the second call succeeds and changes nothing. -/
theorem revoke_share_link_idempotent_witness :
    (revoke_share_link exStateLink 1 100 10).1 = .ok () ∧
    revoke_share_link (revoke_share_link exStateLink 1 100 10).2 1 100 10 =
      (.ok (), (revoke_share_link exStateLink 1 100 10).2) :=
  revoke_share_link_idempotent exStateLink 1 100 10 exDocLink exLink
    (by decide) (by decide) (by decide)

/-- C10: the core accepts OWNER as a grantable role — for a registered
user who is not the document owner and an actor holding MANAGE,
addCollaborator with role OWNER succeeds and stores a collaborator record
whose role is OWNER, after which getUserRole reports OWNER for that user
and the user passes the MANAGE permission check; createShareLink likewise
accepts OWNER as the link's access role. -/
theorem owner_role_grantable (s : ManagerState)
    (document_id user_id acting new_id : UUID) (d : Document) (u : User)
    (expires_at : Option Time) (now : Time)
    (hp : check_permission s acting document_id .manage = true)
    (hd : s.documents.lookup document_id = some d)
    (hu : s.users.lookup user_id = some u)
    (hne : user_id ≠ d.owner_id) :
    add_collaborator s document_id user_id .owner acting now =
      (.ok (ownerCollab document_id user_id acting now),
       ownerCollabState document_id user_id acting now d s) ∧
    (ownerCollabState document_id user_id acting now d s).documents.lookup document_id =
      some (ownerCollabDoc document_id user_id acting now d) ∧
    (ownerCollabDoc document_id user_id acting now d).collaborators.lookup user_id =
      some (ownerCollab document_id user_id acting now) ∧
    (ownerCollab document_id user_id acting now).role = .owner ∧
    get_user_role (ownerCollabState document_id user_id acting now d s)
      user_id document_id = some .owner ∧
    check_permission (ownerCollabState document_id user_id acting now d s)
      user_id document_id .manage = true ∧
    (create_share_link s document_id acting .owner expires_at now new_id).1 =
      .ok (newOwnerLink document_id acting new_id expires_at now) ∧
    (newOwnerLink document_id acting new_id expires_at now).access_role = .owner := by
  have hrole : get_user_role (ownerCollabState document_id user_id acting now d s)
      user_id document_id = some .owner := by
    unfold get_user_role ownerCollabState
    rw [lookup_dinsert_self]
    have hne2 : d.owner_id ≠ user_id := fun he => hne he.symm
    simp [ownerCollabDoc, ownerCollab, lookup_dinsert_self, hne2]
  refine ⟨?_, ?_, ?_, rfl, hrole, ?_, ?_, rfl⟩
  · simp [add_collaborator, hp, hd, hu, hne, ownerCollabState, ownerCollabDoc, ownerCollab]
  · unfold ownerCollabState
    exact lookup_dinsert_self _ _ _
  · unfold ownerCollabDoc
    exact lookup_dinsert_self _ _ _
  · unfold check_permission
    rw [hrole]
    rfl
  · simp [create_share_link, hp, hd, newOwnerLink]

/-- Witness for C10: the owner of document 1 grants user 20 the OWNER
role and creates an OWNER share link, at the concrete store. -/
theorem owner_role_grantable_witness :
    add_collaborator exState 1 20 .owner 10 7 =
      (.ok (ownerCollab 1 20 10 7), ownerCollabState 1 20 10 7 exDoc exState) ∧
    (ownerCollabState 1 20 10 7 exDoc exState).documents.lookup 1 =
      some (ownerCollabDoc 1 20 10 7 exDoc) ∧
    (ownerCollabDoc 1 20 10 7 exDoc).collaborators.lookup 20 =
      some (ownerCollab 1 20 10 7) ∧
    (ownerCollab 1 20 10 7).role = .owner ∧
    get_user_role (ownerCollabState 1 20 10 7 exDoc exState) 20 1 = some .owner ∧
    check_permission (ownerCollabState 1 20 10 7 exDoc exState) 20 1 .manage = true ∧
    (create_share_link exState 1 10 .owner none 7 4).1 = .ok (newOwnerLink 1 10 4 none 7) ∧
    (newOwnerLink 1 10 4 none 7).access_role = .owner :=
  owner_role_grantable exState 1 20 10 4 exDoc { id := 20, email := "e@example.com", name := "E" }
    none 7 (by decide) (by decide) (by decide) (by decide)

theorem add_collaborator_preserves (s : ManagerState) (document_id user_id : UUID)
    (role : Role) (acting : UUID) (now : Time) (h : owner_not_collaborator s) :
    owner_not_collaborator (add_collaborator s document_id user_id role acting now).2 := by
  unfold add_collaborator
  split
  · exact h
  · split
    · exact h
    next document hd =>
      split
      · exact h
      · split
        · exact h
        next hne =>
          intro p hp
          rcases mem_dinsert _ _ _ _ hp with rfl | hp
          · intro q hq
            rcases mem_dinsert _ _ _ _ hq with rfl | hq
            · exact hne
            · exact h (document_id, document) (lookup_mem _ _ _ hd) q hq
          · exact h p hp

theorem remove_collaborator_preserves (s : ManagerState)
    (document_id user_id acting : UUID) (h : owner_not_collaborator s) :
    owner_not_collaborator (remove_collaborator s document_id user_id acting).2 := by
  unfold remove_collaborator
  split
  · exact h
  · split
    · exact h
    next document hd =>
      split
      · exact h
      · intro p hp
        rcases mem_dinsert _ _ _ _ hp with rfl | hp
        · intro q hq
          exact h (document_id, document) (lookup_mem _ _ _ hd) q (mem_derase _ _ _ hq)
        · exact h p hp

theorem create_share_link_preserves (s : ManagerState) (document_id acting : UUID)
    (role : Role) (expires_at : Option Time) (now : Time) (new_id : UUID)
    (h : owner_not_collaborator s) :
    owner_not_collaborator (create_share_link s document_id acting role expires_at now new_id).2 := by
  unfold create_share_link
  split
  · exact h
  · split
    · exact h
    next document hd =>
      intro p hp
      rcases mem_dinsert _ _ _ _ hp with rfl | hp
      · intro q hq
        exact h (document_id, document) (lookup_mem _ _ _ hd) q hq
      · exact h p hp

theorem revoke_share_link_preserves (s : ManagerState) (document_id link_id acting : UUID)
    (h : owner_not_collaborator s) :
    owner_not_collaborator (revoke_share_link s document_id link_id acting).2 := by
  unfold revoke_share_link
  split
  · exact h
  · split
    · exact h
    next document hd =>
      split
      · exact h
      · intro p hp
        rcases mem_dinsert _ _ _ _ hp with rfl | hp
        · intro q hq
          exact h (document_id, document) (lookup_mem _ _ _ hd) q hq
        · exact h p hp

theorem redeem_doc_doc_ok (link_id : UUID) (ouid : Option UUID) (now : Time)
    (d : Document) (h : doc_ok d) : doc_ok (redeem_doc link_id ouid now d) := by
  unfold redeem_doc
  split
  · exact h
  next l hl =>
    split
    · exact h
    next uid =>
      dsimp only
      split
      · exact h
      next c hc =>
        intro q hq
        rcases mem_dinsert _ _ _ _ hq with rfl | hq
        · exact h (uid, c) (lookup_mem _ _ _ hc)
        · exact h q hq

theorem mem_scan_update (link_id : UUID) (f : Document → Document) :
    ∀ docs p, p ∈ scan_update link_id f docs →
      p ∈ docs ∨ ∃ d, (p.1, d) ∈ docs ∧ p.2 = f d := by
  intro docs
  induction docs with
  | nil => intro p hp; simp [scan_update] at hp
  | cons hd tl ih =>
    intro p hp
    obtain ⟨did, d⟩ := hd
    cases hl : d.share_links.lookup link_id with
    | some sl =>
      simp only [scan_update, hl] at hp
      rcases List.mem_cons.mp hp with rfl | hp
      · exact Or.inr ⟨d, List.mem_cons_self _ _, rfl⟩
      · exact Or.inl (List.mem_cons_of_mem _ hp)
    | none =>
      simp only [scan_update, hl] at hp
      rcases List.mem_cons.mp hp with rfl | hp
      · exact Or.inl (List.mem_cons_self _ _)
      · rcases ih p hp with h' | ⟨d₀, hmem, heq⟩
        · exact Or.inl (List.mem_cons_of_mem _ h')
        · exact Or.inr ⟨d₀, List.mem_cons_of_mem _ hmem, heq⟩

theorem access_via_share_link_preserves (s : ManagerState) (link_id : UUID)
    (ouser : Option UUID) (now : Time) (h : owner_not_collaborator s) :
    owner_not_collaborator (access_via_share_link s link_id ouser now).2 := by
  cases hf : find_link link_id s.documents with
  | none =>
    have hs := find_link_none_scan link_id ouser now s.documents hf
    unfold access_via_share_link
    rw [hs]
    exact h
  | some p =>
    obtain ⟨did, d, l⟩ := p
    by_cases ha : l.is_active = true
    · by_cases he : expired l.expires_at now = true
      · have hs := find_link_expired_scan link_id ouser now s.documents did d l hf ha he
        unfold access_via_share_link
        rw [hs]
        exact h
      · have hs := find_link_ok_scan link_id ouser now s.documents did d l hf ha
          (by simpa using he)
        unfold access_via_share_link
        rw [hs]
        intro p hp
        rcases mem_scan_update _ _ _ p hp with hp | ⟨d₀, hmem, heq⟩
        · exact h p hp
        · rw [heq]
          exact redeem_doc_doc_ok link_id ouser now d₀ (h (p.1, d₀) hmem)
    · have hs := find_link_inactive_scan link_id ouser now s.documents did d l hf
        (by simpa using ha)
      unfold access_via_share_link
      rw [hs]
      exact h

theorem list_collaborators_state (s : ManagerState) (document_id acting : UUID) :
    (list_collaborators s document_id acting).2 = s := by
  unfold list_collaborators
  repeat' split
  all_goals rfl

theorem list_share_links_state (s : ManagerState) (document_id acting : UUID) :
    (list_share_links s document_id acting).2 = s := by
  unfold list_share_links
  repeat' split
  all_goals rfl

/-- C5: the document owner is never stored as a collaborator record —
adding the owner as a collaborator always fails InvalidOperation (when the
actor holds MANAGE and the owner is a registered user), and the invariant
that no document's collaborator mapping contains its owner id as a key is
preserved by every sequence of gated operations. -/
theorem owner_never_stored_as_collaborator (s : ManagerState)
    (document_id user_id acting : UUID) (role : Role) (now : Time)
    (d : Document) (u : User)
    (hp : check_permission s acting document_id .manage = true)
    (hd : s.documents.lookup document_id = some d)
    (hu : s.users.lookup user_id = some u)
    (hown : user_id = d.owner_id) :
    add_collaborator s document_id user_id role acting now = (.error .invalidOperation, s) ∧
    (∀ s₀ t, owner_not_collaborator s₀ → Relation.ReflTransGen GatedStep s₀ t →
      owner_not_collaborator t) := by
  constructor
  · subst hown
    have hv : (s.users.lookup d.owner_id).isNone = false := by rw [hu]; rfl
    simp [add_collaborator, hp, hd, hv]
  · intro s₀ t h0 hreach
    induction hreach with
    | refl => exact h0
    | tail _ hstep ih =>
      cases hstep with
      | add did uid role acting now => exact add_collaborator_preserves _ did uid role acting now ih
      | remove did uid acting => exact remove_collaborator_preserves _ did uid acting ih
      | createLink did acting role ea now nid =>
        exact create_share_link_preserves _ did acting role ea now nid ih
      | revokeLink did lid acting => exact revoke_share_link_preserves _ did lid acting ih
      | accessLink lid ouser now => exact access_via_share_link_preserves _ lid ouser now ih
      | listCollab did acting =>
        rw [list_collaborators_state]
        exact ih
      | listLinks did acting =>
        rw [list_share_links_state]
        exact ih

/-- Witness for C5: the owner of document 1 cannot be added as its own
collaborator, and one gated step from the concrete store keeps the
invariant. -/
theorem owner_never_stored_as_collaborator_witness :
    add_collaborator exState 1 10 .editor 10 3 = (.error .invalidOperation, exState) ∧
    owner_not_collaborator (add_collaborator exState 1 20 .editor 10 3).2 :=
  ⟨(owner_never_stored_as_collaborator exState 1 10 10 .editor 3 exDoc
      { id := 10, email := "o@example.com", name := "O" }
      (by decide) (by decide) (by decide) (by decide)).1,
   (owner_never_stored_as_collaborator exState 1 10 10 .editor 3 exDoc
      { id := 10, email := "o@example.com", name := "O" }
      (by decide) (by decide) (by decide) (by decide)).2 exState _
      (by
        intro p hp
        simp only [exState, exDoc, List.mem_singleton] at hp
        subst hp
        intro q hq
        simp [exDoc] at hq)
      (Relation.ReflTransGen.single (GatedStep.add exState 1 20 .editor 10 3))⟩

theorem redeem_doc_share_links (link_id : UUID) (ouid : Option UUID) (now : Time)
    (d : Document) (l : ShareLink) (hl : d.share_links.lookup link_id = some l) :
    (redeem_doc link_id ouid now d).share_links =
      dinsert link_id { l with access_count := l.access_count + 1 } d.share_links := by
  unfold redeem_doc
  rw [hl]
  dsimp only
  split
  · rfl
  next uid =>
    split
    · rfl
    · rfl

theorem find_link_scan_update_redeem (link_id : UUID) (ouid : Option UUID) (now : Time) :
    ∀ docs did d l, find_link link_id docs = some (did, d, l) →
      find_link link_id (scan_update link_id (redeem_doc link_id ouid now) docs) =
        some (did, redeem_doc link_id ouid now d,
          { l with access_count := l.access_count + 1 }) := by
  intro docs
  induction docs with
  | nil => intro did d l h; simp [find_link] at h
  | cons hd tl ih =>
    intro did d l h
    obtain ⟨did₀, d₀⟩ := hd
    cases hl : d₀.share_links.lookup link_id with
    | some sl =>
      simp [find_link, hl] at h
      obtain ⟨h₁, h₂, h₃⟩ := h
      subst h₁; subst h₂; subst h₃
      have hr := redeem_doc_share_links link_id ouid now d₀ sl hl
      simp only [scan_update, hl]
      simp [find_link, hr, lookup_dinsert_self]
    | none =>
      simp only [find_link, hl] at h
      have ih' := ih did d l h
      simp only [scan_update, hl]
      simp [find_link, hl, ih']

theorem redeemN_count (s : ManagerState) (link_id : UUID) (now : Time)
    (did : UUID) (d : Document) (l : ShareLink)
    (hf : find_link link_id s.documents = some (did, d, l))
    (ha : l.is_active = true) (he : l.expires_at = none) :
    ∀ n, ∃ dn, find_link link_id (redeemN s link_id now n).documents =
      some (did, dn, { l with access_count := l.access_count + n }) := by
  intro n
  induction n with
  | zero => exact ⟨d, hf⟩
  | succ n ihn =>
    obtain ⟨dn, hdn⟩ := ihn
    have ha' : ({ l with access_count := l.access_count + n } : ShareLink).is_active = true := ha
    have hexp :
        expired ({ l with access_count := l.access_count + n } : ShareLink).expires_at now
          = false := by
      show expired l.expires_at now = false
      rw [he]
      rfl
    have hs := find_link_ok_scan link_id none now (redeemN s link_id now n).documents did dn
      { l with access_count := l.access_count + n } hdn ha' hexp
    refine ⟨redeem_doc link_id none now dn, ?_⟩
    show find_link link_id
      (access_via_share_link (redeemN s link_id now n) link_id none now).2.documents = _
    unfold access_via_share_link
    rw [hs]
    dsimp only
    exact find_link_scan_update_redeem link_id none now (redeemN s link_id now n).documents
      did dn { l with access_count := l.access_count + n } hdn

/-- C6: redeeming an active, unexpired share link succeeds and returns the
owning document together with the link's fixed access role (whoever the
accessing user is), increments exactly that link's access counter by one,
leaves every other link record verbatim, and N sequential redemptions add
N to the counter (so a fresh counter reaches exactly N). -/
theorem share_link_redemption_success (s : ManagerState) (link_id : UUID)
    (ouser : Option UUID) (now : Time) (did : UUID) (d : Document) (l : ShareLink)
    (hf : find_link link_id s.documents = some (did, d, l))
    (ha : l.is_active = true)
    (he : expired l.expires_at now = false) :
    access_via_share_link s link_id ouser now =
      (.ok (redeem_doc link_id ouser now d, l.access_role),
       { s with documents := scan_update link_id (redeem_doc link_id ouser now) s.documents }) ∧
    find_link link_id (access_via_share_link s link_id ouser now).2.documents =
      some (did, redeem_doc link_id ouser now d,
        { l with access_count := l.access_count + 1 }) ∧
    (∀ p, p ∈ (access_via_share_link s link_id ouser now).2.documents →
      ∀ q, q ∈ p.2.share_links → q.1 ≠ link_id →
        ∃ d₀, (p.1, d₀) ∈ s.documents ∧ q ∈ d₀.share_links) ∧
    (l.expires_at = none →
      ∀ n, ∃ dn, find_link link_id (redeemN s link_id now n).documents =
        some (did, dn, { l with access_count := l.access_count + n })) := by
  have hs := find_link_ok_scan link_id ouser now s.documents did d l hf ha he
  have h1 : access_via_share_link s link_id ouser now =
      (.ok (redeem_doc link_id ouser now d, l.access_role),
       { s with documents := scan_update link_id (redeem_doc link_id ouser now) s.documents }) := by
    unfold access_via_share_link
    rw [hs]
  refine ⟨h1, ?_, ?_, ?_⟩
  · rw [h1]
    exact find_link_scan_update_redeem link_id ouser now s.documents did d l hf
  · intro p hp q hq hne
    rw [h1] at hp
    rcases mem_scan_update _ _ _ p hp with hp' | ⟨d₀, hmem, heq⟩
    · exact ⟨p.2, hp', hq⟩
    · cases hl0 : d₀.share_links.lookup link_id with
      | none =>
        refine ⟨d₀, hmem, ?_⟩
        have hid : redeem_doc link_id ouser now d₀ = d₀ := by
          unfold redeem_doc
          rw [hl0]
        rw [heq, hid] at hq
        exact hq
      | some l₀ =>
        have hr := redeem_doc_share_links link_id ouser now d₀ l₀ hl0
        rw [heq, hr] at hq
        rcases mem_dinsert _ _ _ _ hq with rfl | hq'
        · exact absurd rfl hne
        · exact ⟨d₀, hmem, hq'⟩
  · intro he0 n
    exact redeemN_count s link_id now did d l hf ha he0 n

/-- Witness for C6: redeeming the concrete active link succeeds with the
viewer access role, and five sequential redemptions raise the counter to
exactly five. -/
theorem share_link_redemption_success_witness :
    access_via_share_link exStateLink 100 none 3 =
      (.ok (redeem_doc 100 none 3 exDocLink, exLink.access_role),
       { exStateLink with
         documents := scan_update 100 (redeem_doc 100 none 3) exStateLink.documents }) ∧
    (∃ d₅, find_link 100 (redeemN exStateLink 100 3 5).documents =
      some (1, d₅, { exLink with access_count := 5 })) :=
  ⟨(share_link_redemption_success exStateLink 100 none 3 1 exDocLink exLink
      (by decide) (by decide) (by decide)).1,
   (share_link_redemption_success exStateLink 100 none 3 1 exDocLink exLink
      (by decide) (by decide) (by decide)).2.2.2 rfl 5⟩

end Collab
